import Mathlib

/-!
Shallow embedding of the dynamic-FBA right-hand-side functions of
`part2_community_dfba.ipynb`: the kinetic uptake-bound expressions, the
single-organism steps `sc_dfba` (yeast) and `ec_dfba` (E. coli), and the
community step `community_dfba`.

Concentrations and fluxes are rationals.  The external FBA solver
(cobrapy's `model.optimize()`) is an abstract function from the model's
exchange lower bounds to an optimization result (a status string plus a
flux map), wrapped in `Except` so that a raised solver error is
representable.  The `with model:` blocks of the notebook are context
managers that revert every bound change on all exit paths; each step
therefore returns, next to the derivative vector (or propagated error),
the model bounds in force after the call.
-/

/-- Kinetic parameter: maximum rate of glucose uptake. -/
def V_max_glc : ℚ := 10.0

/-- Kinetic parameter: Michaelis-Menten constant for glucose uptake. -/
def K_m_glc : ℚ := 0.01

/-- Kinetic parameter: maximum rate of oxygen uptake. -/
def V_max_o2 : ℚ := 20.0

/-- Kinetic parameter: Michaelis-Menten constant for oxygen uptake. -/
def K_m_o2 : ℚ := 0.1

/-- Oxygen gas-liquid mass-transfer coefficient. -/
def kLa_o2 : ℚ := 10.0

/-- Constant bound on ammonium (nitrogen source) uptake. -/
def V_max_nh4 : ℚ := 5.0

/-- Kinetic parameter: maximum rate of ethanol uptake (E. coli). -/
def V_max_eth : ℚ := 10.0

/-- Kinetic parameter: Michaelis-Menten constant for ethanol uptake. -/
def K_m_eth : ℚ := 0.1

/-- The mutable part of a metabolic model that the DFBA steps touch: the
lower bounds of the four relevant exchange reactions. -/
structure ModelBounds where
  glc_lb : ℚ
  o2_lb : ℚ
  nh4_lb : ℚ
  etoh_lb : ℚ
deriving DecidableEq

/-- Result of one `optimize()` call: a status string (the code compares it
with "optimal") and the flux vector, keyed by reaction identifier. -/
structure OptResult where
  status : String
  fluxes : String → ℚ

/-- Abstract FBA solver: from the exchange bounds in force, either an
optimization result or a raised error. -/
def Solver : Type := ModelBounds → Except String OptResult

/-- The exchange bounds `sc_dfba` sets inside its `with sc_model:` block,
from the current state `x`: Michaelis-Menten expressions for glucose
(`x 2`) and oxygen (`x 3`), and the constant `- V_max_nh4` for ammonium. -/
def sc_innerBounds (m : ModelBounds) (x : Fin 5 → ℚ) : ModelBounds :=
  { m with
    glc_lb := if x 2 > 0 then - V_max_glc * x 2 / (K_m_glc + x 2) else 0.0,
    o2_lb := if x 3 > 0 then - V_max_o2 * x 3 / (K_m_o2 + x 3) else 0.0,
    nh4_lb := - V_max_nh4 }

/-- Right-hand side of the yeast DFBA ODE (`sc_dfba` in the notebook).
State slots: yeast biomass, unused, glucose, oxygen, ethanol.  Returns the
derivative vector (or the propagated solver error) together with the model
bounds after the call; the `with sc_model:` block restores them to `m`. -/
def sc_dfba (solver : Solver) (m : ModelBounds) (t : ℚ) (x : Fin 5 → ℚ) :
    Except String (Fin 5 → ℚ) × ModelBounds :=
  let xdot : Fin 5 → ℚ := fun _ => 0
  let xdot := Function.update xdot 3 (kLa_o2 * (10.0 - x 3))
  match solver (sc_innerBounds m x) with
  | Except.error e => (Except.error e, m)
  | Except.ok sc_sol =>
    if sc_sol.status = "optimal" then
      let xdot := Function.update xdot 0 (xdot 0 + sc_sol.fluxes "BIOMASS_SC5_notrace" * x 0)
      let xdot := Function.update xdot 2 (xdot 2 + sc_sol.fluxes "EX_glc__D_e" * 0.18 * x 0)
      let xdot := Function.update xdot 3 (xdot 3 + sc_sol.fluxes "EX_o2_e" * 32 * x 0)
      let xdot := Function.update xdot 4 (xdot 4 + sc_sol.fluxes "EX_etoh_e" * 0.046 * x 0)
      (Except.ok xdot, m)
    else (Except.ok xdot, m)

/-- The exchange bounds `ec_dfba` sets inside its `with ec_model:` block:
as written in the notebook, glucose, oxygen and ammonium lower bounds are
the constant `0.0`, and only ethanol (`x 4`) gets a Michaelis-Menten
expression. -/
def ec_innerBounds (m : ModelBounds) (x : Fin 5 → ℚ) : ModelBounds :=
  { m with
    glc_lb := 0.0,
    o2_lb := 0.0,
    nh4_lb := 0.0,
    etoh_lb := if x 4 > 0 then - V_max_eth * x 4 / (K_m_eth + x 4) else 0.0 }

/-- Right-hand side of the E. coli DFBA ODE (`ec_dfba` in the notebook).
As written, on an optimal solution it only adds the ethanol exchange term
to slot 4 (biomass growth and the other exchanges are left to the
reader). -/
def ec_dfba (solver : Solver) (m : ModelBounds) (t : ℚ) (x : Fin 5 → ℚ) :
    Except String (Fin 5 → ℚ) × ModelBounds :=
  let xdot : Fin 5 → ℚ := fun _ => 0
  let xdot := Function.update xdot 3 (kLa_o2 * (10.0 - x 3))
  match solver (ec_innerBounds m x) with
  | Except.error e => (Except.error e, m)
  | Except.ok ec_sol =>
    if ec_sol.status = "optimal" then
      let xdot := Function.update xdot 4 (xdot 4 + ec_sol.fluxes "EX_etoh_e" * 0.046 * x 1)
      (Except.ok xdot, m)
    else (Except.ok xdot, m)

/-- Right-hand side of the community DFBA ODE (`community_dfba` in the
notebook).  As written, neither `with` block sets any exchange bounds
(both solvers see the unmodified bounds), and on an optimal solution each
organism adds only its biomass-growth term; the exchange-flux
contributions to the metabolite slots are left to the reader. -/
def community_dfba (sc_solver ec_solver : Solver) (sc_m ec_m : ModelBounds)
    (t : ℚ) (x : Fin 5 → ℚ) :
    Except String (Fin 5 → ℚ) × ModelBounds × ModelBounds :=
  let xdot : Fin 5 → ℚ := fun _ => 0
  let xdot := Function.update xdot 3 (kLa_o2 * (10.0 - x 3))
  match sc_solver sc_m with
  | Except.error e => (Except.error e, sc_m, ec_m)
  | Except.ok sc_sol =>
    let xdot := if sc_sol.status = "optimal" then
        Function.update xdot 0 (xdot 0 + sc_sol.fluxes "BIOMASS_SC5_notrace" * x 0)
      else xdot
    match ec_solver ec_m with
    | Except.error e => (Except.error e, sc_m, ec_m)
    | Except.ok ec_sol =>
      let xdot := if ec_sol.status = "optimal" then
          Function.update xdot 1 (xdot 1 + ec_sol.fluxes "BIOMASS_Ec_iJO1366_core_53p95M" * x 1)
        else xdot
      (Except.ok xdot, sc_m, ec_m)

/-- Order-swapped variant of `community_dfba`: the E. coli `with` block is
evaluated before the yeast one, everything else unchanged.  Used to state
commutativity of the aggregation order. -/
def community_dfba_swapped (sc_solver ec_solver : Solver) (sc_m ec_m : ModelBounds)
    (t : ℚ) (x : Fin 5 → ℚ) :
    Except String (Fin 5 → ℚ) × ModelBounds × ModelBounds :=
  let xdot : Fin 5 → ℚ := fun _ => 0
  let xdot := Function.update xdot 3 (kLa_o2 * (10.0 - x 3))
  match ec_solver ec_m with
  | Except.error e => (Except.error e, sc_m, ec_m)
  | Except.ok ec_sol =>
    let xdot := if ec_sol.status = "optimal" then
        Function.update xdot 1 (xdot 1 + ec_sol.fluxes "BIOMASS_Ec_iJO1366_core_53p95M" * x 1)
      else xdot
    match sc_solver sc_m with
    | Except.error e => (Except.error e, sc_m, ec_m)
    | Except.ok sc_sol =>
      let xdot := if sc_sol.status = "optimal" then
          Function.update xdot 0 (xdot 0 + sc_sol.fluxes "BIOMASS_SC5_notrace" * x 0)
        else xdot
      (Except.ok xdot, sc_m, ec_m)

/-- The Kinetic Constraint Mapper of the specification (section 4.1),
parametric in `(V_max, K_m)`: the Michaelis-Menten uptake-rate bound
`- Vmax * c / (Km + c)` for a positive substrate concentration `c`, and
`0` otherwise.  The inline bound expressions of `sc_innerBounds` and
`ec_innerBounds` are instances of it. -/
def kineticBound (Vmax Km c : ℚ) : ℚ :=
  if c > 0 then - Vmax * c / (Km + c) else 0.0

/-- A concrete flux map used by witness inputs. -/
def wFluxes : String → ℚ := fun r =>
  if r = "BIOMASS_SC5_notrace" then 0.3
  else if r = "BIOMASS_Ec_iJO1366_core_53p95M" then 0.2
  else if r = "EX_glc__D_e" then -5
  else if r = "EX_o2_e" then -8
  else if r = "EX_etoh_e" then 3
  else 0

/-- A concrete optimal optimization result. -/
def wOpt : OptResult := ⟨"optimal", wFluxes⟩

/-- A concrete infeasible optimization result. -/
def wInf : OptResult := ⟨"infeasible", fun _ => 0⟩

/-- A solver that always returns the optimal result `wOpt`. -/
def wSolverOpt : Solver := fun _ => Except.ok wOpt

/-- A solver that always returns the infeasible result `wInf`. -/
def wSolverInf : Solver := fun _ => Except.ok wInf

/-- Concrete pre-call model bounds for witnesses. -/
def wM : ModelBounds := ⟨-10, -20, -5, 0⟩

/-- Concrete state vector for witnesses: yeast biomass 0.01, glucose 10,
oxygen 10, ethanol 0. -/
def wX : Fin 5 → ℚ := fun i =>
  if i = 0 then 0.01 else if i = 2 then 10.0 else if i = 3 then 10.0 else 0

/-- C1: when the yeast optimization is optimal, `sc_dfba` returns a
derivative whose biomass slot is the growth flux times the biomass
`x 0`, and whose glucose, oxygen and ethanol slots are the corresponding
exchange fluxes times `x 0` times the molar-mass factors 0.18, 32 and
0.046, the oxygen slot additionally carrying the mass-transfer term
`kLa_o2 * (10.0 - x 3)`. -/
theorem sc_dfba_optimal_derivatives (solver : Solver) (m : ModelBounds) (t : ℚ)
    (x : Fin 5 → ℚ) (sol : OptResult)
    (hsol : solver (sc_innerBounds m x) = Except.ok sol)
    (hopt : sol.status = "optimal") :
    ∃ xd, (sc_dfba solver m t x).1 = Except.ok xd ∧
      xd 0 = sol.fluxes "BIOMASS_SC5_notrace" * x 0 ∧
      xd 1 = 0 ∧
      xd 2 = sol.fluxes "EX_glc__D_e" * 0.18 * x 0 ∧
      xd 3 = kLa_o2 * (10.0 - x 3) + sol.fluxes "EX_o2_e" * 32 * x 0 ∧
      xd 4 = sol.fluxes "EX_etoh_e" * 0.046 * x 0 := by
  unfold sc_dfba
  simp only [hsol]
  rw [if_pos hopt]
  refine ⟨_, rfl, ?_, ?_, ?_, ?_, ?_⟩ <;>
    simp [Function.update_apply]

/-- C1 witness: the theorem instantiated at a concrete solver and state. -/
theorem sc_dfba_optimal_derivatives_witness :
    ∃ xd, (sc_dfba wSolverOpt wM 0 wX).1 = Except.ok xd ∧
      xd 0 = wOpt.fluxes "BIOMASS_SC5_notrace" * wX 0 ∧
      xd 1 = 0 ∧
      xd 2 = wOpt.fluxes "EX_glc__D_e" * 0.18 * wX 0 ∧
      xd 3 = kLa_o2 * (10.0 - wX 3) + wOpt.fluxes "EX_o2_e" * 32 * wX 0 ∧
      xd 4 = wOpt.fluxes "EX_etoh_e" * 0.046 * wX 0 :=
  sc_dfba_optimal_derivatives wSolverOpt wM 0 wX wOpt rfl rfl

/-- C5: the exchange bounds of the underlying model after a
single-organism DFBA step equal their pre-call values, for every solver
outcome (optimal, non-optimal, or a raised error), for both `sc_dfba`
and `ec_dfba`. -/
theorem dfba_bounds_restored (sc_solver ec_solver : Solver) (m me : ModelBounds)
    (t : ℚ) (x : Fin 5 → ℚ) :
    (sc_dfba sc_solver m t x).2 = m ∧ (ec_dfba ec_solver me t x).2 = me := by
  constructor
  · rcases hsc : sc_solver (sc_innerBounds m x) with e | sol
    · simp [sc_dfba, hsc]
    · by_cases h : sol.status = "optimal" <;> simp [sc_dfba, hsc, h]
  · rcases hec : ec_solver (ec_innerBounds me x) with e | sol
    · simp [ec_dfba, hec]
    · by_cases h : sol.status = "optimal" <;> simp [ec_dfba, hec, h]

/-- C3: the kinetic constraint mapper returns `- Vmax * c / (Km + c)` for
a positive substrate concentration and `0` for a non-positive one; the
glucose and oxygen bound expressions of `sc_dfba` and the ethanol bound
expression of `ec_dfba` are exactly this mapper at the corresponding
concentration and parameters, and ethanol concentration `x 4 = 0` forces
the ethanol-uptake bound to `0`. -/
theorem kinetic_mapper_values (Vmax Km c : ℚ) (m me : ModelBounds) (x : Fin 5 → ℚ) :
    (0 < c → kineticBound Vmax Km c = - Vmax * c / (Km + c)) ∧
    (c ≤ 0 → kineticBound Vmax Km c = 0) ∧
    (sc_innerBounds m x).glc_lb = kineticBound V_max_glc K_m_glc (x 2) ∧
    (sc_innerBounds m x).o2_lb = kineticBound V_max_o2 K_m_o2 (x 3) ∧
    (ec_innerBounds me x).etoh_lb = kineticBound V_max_eth K_m_eth (x 4) ∧
    (x 4 = 0 → (ec_innerBounds me x).etoh_lb = 0) := by
  refine ⟨fun h => ?_, fun h => ?_, rfl, rfl, rfl, fun h => ?_⟩
  · rw [kineticBound, if_pos h]
  · rw [kineticBound, if_neg (not_lt.mpr h)]
    norm_num
  · show (if x 4 > 0 then - V_max_eth * x 4 / (K_m_eth + x 4) else 0.0) = 0
    rw [h]
    norm_num

/-- C3 witness: the mapper evaluated at concrete positive and negative
concentrations, and the ethanol bound at the zero-ethanol state `wX`. -/
theorem kinetic_mapper_values_witness :
    kineticBound 10 (1/10) 2 = - 10 * 2 / (1/10 + 2) ∧
    kineticBound 10 (1/10) (-1) = 0 ∧
    (ec_innerBounds wM wX).etoh_lb = 0 :=
  ⟨(kinetic_mapper_values 10 (1/10) 2 wM wM wX).1 (by norm_num),
   (kinetic_mapper_values 10 (1/10) (-1) wM wM wX).2.1 (by norm_num),
   (kinetic_mapper_values 10 (1/10) 2 wM wM wX).2.2.2.2.2 (by simp [wX])⟩

/-- C4: when the optimization result is non-optimal, both single-organism
steps return (without an error) a derivative vector consisting solely of
the oxygen mass-transfer term in slot 3, with every other slot zero. -/
theorem infeasible_zero_contribution (sc_solver ec_solver : Solver)
    (m me : ModelBounds) (t : ℚ) (x : Fin 5 → ℚ) (ssol esol : OptResult)
    (hsc : sc_solver (sc_innerBounds m x) = Except.ok ssol)
    (hs : ssol.status ≠ "optimal")
    (hec : ec_solver (ec_innerBounds me x) = Except.ok esol)
    (he : esol.status ≠ "optimal") :
    (∃ xd, (sc_dfba sc_solver m t x).1 = Except.ok xd ∧
      xd 3 = kLa_o2 * (10.0 - x 3) ∧ ∀ i : Fin 5, i ≠ 3 → xd i = 0) ∧
    (∃ xd, (ec_dfba ec_solver me t x).1 = Except.ok xd ∧
      xd 3 = kLa_o2 * (10.0 - x 3) ∧ ∀ i : Fin 5, i ≠ 3 → xd i = 0) := by
  constructor
  · have h1 : (sc_dfba sc_solver m t x).1 =
        Except.ok (Function.update (fun _ => 0) 3 (kLa_o2 * (10.0 - x 3))) := by
      unfold sc_dfba
      simp only [hsc]
      rw [if_neg hs]
    exact ⟨_, h1, by simp, fun i hi => by simp [Function.update_apply, hi]⟩
  · have h1 : (ec_dfba ec_solver me t x).1 =
        Except.ok (Function.update (fun _ => 0) 3 (kLa_o2 * (10.0 - x 3))) := by
      unfold ec_dfba
      simp only [hec]
      rw [if_neg he]
    exact ⟨_, h1, by simp, fun i hi => by simp [Function.update_apply, hi]⟩

/-- C4 witness: the theorem instantiated at the always-infeasible solver. -/
theorem infeasible_zero_contribution_witness :
    (∃ xd, (sc_dfba wSolverInf wM 0 wX).1 = Except.ok xd ∧
      xd 3 = kLa_o2 * (10.0 - wX 3) ∧ ∀ i : Fin 5, i ≠ 3 → xd i = 0) ∧
    (∃ xd, (ec_dfba wSolverInf wM 0 wX).1 = Except.ok xd ∧
      xd 3 = kLa_o2 * (10.0 - wX 3) ∧ ∀ i : Fin 5, i ≠ 3 → xd i = 0) :=
  infeasible_zero_contribution wSolverInf wSolverInf wM wM 0 wX wInf wInf
    rfl (by decide) rfl (by decide)

/-- A concrete state with both biomasses, glucose, oxygen and ethanol
present. -/
def wX2 : Fin 5 → ℚ := fun i =>
  if i = 0 then 1 else if i = 1 then 1 else if i = 2 then 10.0
  else if i = 3 then 10.0 else 1

/-- C7: whenever both optimizations return a result (of any status),
evaluating the organisms in the opposite order inside the community step
yields the same derivative vector. -/
theorem community_dfba_comm (sc_solver ec_solver : Solver) (sc_m ec_m : ModelBounds)
    (t : ℚ) (x : Fin 5 → ℚ) (ssol esol : OptResult)
    (hsc : sc_solver sc_m = Except.ok ssol) (hec : ec_solver ec_m = Except.ok esol) :
    (community_dfba sc_solver ec_solver sc_m ec_m t x).1 =
      (community_dfba_swapped sc_solver ec_solver sc_m ec_m t x).1 := by
  by_cases hs : ssol.status = "optimal" <;> by_cases he : esol.status = "optimal" <;>
    simp only [community_dfba, community_dfba_swapped, hsc, hec, hs, he,
      if_true, if_false, ite_true, ite_false, eq_self_iff_true, ne_eq,
      not_false_iff] <;>
    refine congrArg (fun v => (Except.ok v, sc_m, ec_m).1) ?_ <;>
    funext i <;> fin_cases i <;> simp [Function.update_apply, hs, he]

/-- C7 witness: both evaluation orders at a concrete pair of solvers. -/
theorem community_dfba_comm_witness :
    (community_dfba wSolverOpt wSolverInf wM wM 0 wX2).1 =
      (community_dfba_swapped wSolverOpt wSolverInf wM wM 0 wX2).1 :=
  community_dfba_comm wSolverOpt wSolverInf wM wM 0 wX2 wOpt wInf rfl rfl

/-- C9: whenever both optimizations return a result, the oxygen slot of
the community derivative is exactly one copy of the mass-transfer term
`kLa_o2 * (10.0 - x 3)`, and at oxygen saturation `x 3 = 10.0` that term
contributes exactly zero. -/
theorem community_oxygen_transfer_once (sc_solver ec_solver : Solver)
    (sc_m ec_m : ModelBounds) (t : ℚ) (x : Fin 5 → ℚ) (ssol esol : OptResult)
    (hsc : sc_solver sc_m = Except.ok ssol) (hec : ec_solver ec_m = Except.ok esol) :
    ∃ xd, (community_dfba sc_solver ec_solver sc_m ec_m t x).1 = Except.ok xd ∧
      xd 3 = kLa_o2 * (10.0 - x 3) ∧ (x 3 = 10.0 → xd 3 = 0) := by
  unfold community_dfba
  simp only [hsc, hec]
  refine ⟨_, rfl, ?_, ?_⟩
  · by_cases hs : ssol.status = "optimal" <;> by_cases he : esol.status = "optimal" <;>
      simp [hs, he, Function.update_apply]
  · intro hx
    by_cases hs : ssol.status = "optimal" <;> by_cases he : esol.status = "optimal" <;>
      simp [hs, he, Function.update_apply, hx]

/-- C9 witness: the oxygen slot at the saturated concrete state `wX`. -/
theorem community_oxygen_transfer_once_witness :
    ∃ xd, (community_dfba wSolverOpt wSolverOpt wM wM 0 wX).1 = Except.ok xd ∧
      xd 3 = kLa_o2 * (10.0 - wX 3) ∧ (wX 3 = 10.0 → xd 3 = 0) :=
  community_oxygen_transfer_once wSolverOpt wSolverOpt wM wM 0 wX wOpt wOpt rfl rfl

/-- C10: whatever the solver outcome, an `ec_dfba` derivative vector has
zeros in the yeast-biomass, E. coli-biomass and glucose slots, the oxygen
mass-transfer term in slot 3, and in slot 4 exactly the ethanol exchange
contribution when the solution is optimal (zero otherwise). -/
theorem ec_dfba_frame_slots (solver : Solver) (m : ModelBounds) (t : ℚ)
    (x : Fin 5 → ℚ) (xd : Fin 5 → ℚ)
    (h : (ec_dfba solver m t x).1 = Except.ok xd) :
    xd 0 = 0 ∧ xd 1 = 0 ∧ xd 2 = 0 ∧ xd 3 = kLa_o2 * (10.0 - x 3) ∧
      (∀ sol, solver (ec_innerBounds m x) = Except.ok sol →
        (sol.status = "optimal" → xd 4 = sol.fluxes "EX_etoh_e" * 0.046 * x 1) ∧
        (sol.status ≠ "optimal" → xd 4 = 0)) := by
  unfold ec_dfba at h
  rcases hsol : solver (ec_innerBounds m x) with e | sol <;> rw [hsol] at h
  · simp at h
  · dsimp only at h
    by_cases hst : sol.status = "optimal"
    · rw [if_pos hst] at h
      simp only [Except.ok.injEq] at h
      subst h
      refine ⟨by simp [Function.update_apply], by simp [Function.update_apply],
        by simp [Function.update_apply], by simp [Function.update_apply],
        fun sol2 hsol2 => ?_⟩
      injection hsol2 with hh
      subst hh
      exact ⟨fun _ => by simp [Function.update_apply],
        fun hc => absurd hst hc⟩
    · rw [if_neg hst] at h
      simp only [Except.ok.injEq] at h
      subst h
      refine ⟨by simp [Function.update_apply], by simp [Function.update_apply],
        by simp [Function.update_apply], by simp [Function.update_apply],
        fun sol2 hsol2 => ?_⟩
      injection hsol2 with hh
      subst hh
      exact ⟨fun hc => absurd hc hst,
        fun _ => by simp [Function.update_apply]⟩

/-- The derivative vector `ec_dfba` produces at the concrete witness
input: only the oxygen transfer slot and the ethanol slot are written. -/
def wEcDeriv : Fin 5 → ℚ :=
  let base : Fin 5 → ℚ := fun _ => 0
  let xdot := Function.update base 3 (kLa_o2 * (10.0 - wX 3))
  Function.update xdot 4 (xdot 4 + wOpt.fluxes "EX_etoh_e" * 0.046 * wX 1)

/-- C10 witness: the theorem instantiated at the always-optimal solver. -/
theorem ec_dfba_frame_slots_witness :
    wEcDeriv 0 = 0 ∧ wEcDeriv 1 = 0 ∧ wEcDeriv 2 = 0 ∧
      wEcDeriv 3 = kLa_o2 * (10.0 - wX 3) ∧
      (∀ sol, wSolverOpt (ec_innerBounds wM wX) = Except.ok sol →
        (sol.status = "optimal" →
          wEcDeriv 4 = sol.fluxes "EX_etoh_e" * 0.046 * wX 1) ∧
        (sol.status ≠ "optimal" → wEcDeriv 4 = 0)) :=
  ec_dfba_frame_slots wSolverOpt wM 0 wX wEcDeriv rfl

/-- C2 evaluated on the code as written: with both optimizations optimal
and nonzero glucose and ethanol exchange fluxes, `community_dfba` leaves
the glucose and ethanol slots at zero and the oxygen slot at the bare
transfer term, while the summed per-organism glucose contribution the
claim demands is nonzero at this input. -/
theorem community_dfba_stub_no_exchange_aggregation :
    (∃ xd, (community_dfba wSolverOpt wSolverOpt wM wM 0 wX2).1 = Except.ok xd ∧
      xd 2 = 0 ∧ xd 4 = 0 ∧ xd 3 = kLa_o2 * (10.0 - wX2 3)) ∧
    wOpt.fluxes "EX_glc__D_e" * 0.18 * wX2 0 +
      wOpt.fluxes "EX_glc__D_e" * 0.18 * wX2 1 ≠ 0 :=
  ⟨⟨_, rfl, by simp [wOpt, Function.update_apply],
      by simp [wOpt, Function.update_apply],
      by simp [wOpt, Function.update_apply]⟩,
    by simp [wOpt, wFluxes, wX2]; norm_num⟩

/-- C6 counterexample: at glucose and oxygen concentration 10, `ec_dfba`
as written sets the glucose and oxygen exchange lower bounds to the
constant 0, not to the Michaelis-Menten mapper values at those
concentrations; and the ammonium bound set by `sc_dfba` is the constant
`- V_max_nh4`. -/
theorem ec_bounds_not_kinetic_counterexample :
    (ec_innerBounds wM wX2).glc_lb = 0 ∧
    kineticBound V_max_glc K_m_glc (wX2 2) ≠ 0 ∧
    (ec_innerBounds wM wX2).o2_lb = 0 ∧
    kineticBound V_max_o2 K_m_o2 (wX2 3) ≠ 0 ∧
    (sc_innerBounds wM wX2).nh4_lb = - V_max_nh4 := by
  have h2 : wX2 2 = 10 := by simp [wX2]; norm_num
  have h3 : wX2 3 = 10 := by simp [wX2]; norm_num
  refine ⟨by norm_num [ec_innerBounds], ?_, by norm_num [ec_innerBounds], ?_, rfl⟩
  · rw [h2, kineticBound, if_pos (by norm_num)]
    norm_num [V_max_glc, K_m_glc]
  · rw [h3, kineticBound, if_pos (by norm_num)]
    norm_num [V_max_o2, K_m_o2]

/-- C6 amended: on every evaluation `sc_dfba` computes Michaelis-Menten
bounds for glucose and oxygen and sets the constant `- V_max_nh4` for the
nitrogen source (leaving the ethanol bound untouched), while `ec_dfba` as
written sets the glucose, oxygen and nitrogen bounds to the constant 0
and computes a Michaelis-Menten bound only for the ethanol carbon
source. -/
theorem exchange_bounds_as_written (m me : ModelBounds) (x : Fin 5 → ℚ) :
    (sc_innerBounds m x).glc_lb = kineticBound V_max_glc K_m_glc (x 2) ∧
    (sc_innerBounds m x).o2_lb = kineticBound V_max_o2 K_m_o2 (x 3) ∧
    (sc_innerBounds m x).nh4_lb = - V_max_nh4 ∧
    (sc_innerBounds m x).etoh_lb = m.etoh_lb ∧
    (ec_innerBounds me x).glc_lb = 0 ∧
    (ec_innerBounds me x).o2_lb = 0 ∧
    (ec_innerBounds me x).nh4_lb = 0 ∧
    (ec_innerBounds me x).etoh_lb = kineticBound V_max_eth K_m_eth (x 4) :=
  ⟨rfl, rfl, rfl, rfl, by norm_num [ec_innerBounds], by norm_num [ec_innerBounds],
    by norm_num [ec_innerBounds], rfl⟩

/-- C8: for positive parameters, the magnitude of the Michaelis-Menten
uptake bound is monotonically non-decreasing in the concentration on
`c > 0`, and the bound approaches `- Vmax` as `c` grows without bound. -/
theorem kineticBound_monotone_and_asymptote (Vmax Km : ℚ) (hV : 0 < Vmax)
    (hK : 0 < Km) :
    (∀ c₁ c₂ : ℚ, 0 < c₁ → c₁ ≤ c₂ →
      |kineticBound Vmax Km c₁| ≤ |kineticBound Vmax Km c₂|) ∧
    (∀ ε : ℚ, 0 < ε → ∃ C : ℚ, ∀ c : ℚ, C ≤ c →
      |kineticBound Vmax Km c - (- Vmax)| < ε) := by
  constructor
  · intro c₁ c₂ h1 h12
    have h2 : 0 < c₂ := lt_of_lt_of_le h1 h12
    rw [kineticBound, kineticBound, if_pos h1, if_pos h2]
    have e1 : - Vmax * c₁ / (Km + c₁) = -(Vmax * c₁ / (Km + c₁)) := by ring
    have e2 : - Vmax * c₂ / (Km + c₂) = -(Vmax * c₂ / (Km + c₂)) := by ring
    rw [e1, e2, abs_neg, abs_neg, abs_of_nonneg (by positivity),
      abs_of_nonneg (by positivity)]
    rw [div_le_div_iff (by positivity) (by positivity)]
    nlinarith [mul_le_mul_of_nonneg_left h12 (mul_nonneg hV.le hK.le)]
  · intro ε hε
    refine ⟨max 1 (Vmax * Km / ε), fun c hc => ?_⟩
    have hc1 : (1:ℚ) ≤ c := le_trans (le_max_left _ _) hc
    have hc0 : 0 < c := lt_of_lt_of_le one_pos hc1
    have hcv : Vmax * Km / ε ≤ c := le_trans (le_max_right _ _) hc
    have hkc : 0 < Km + c := by positivity
    rw [kineticBound, if_pos hc0]
    have key : - Vmax * c / (Km + c) - (- Vmax) = Vmax * Km / (Km + c) := by
      rw [sub_eq_iff_eq_add, div_add' _ _ _ hkc.ne']
      rw [div_eq_div_iff hkc.ne' hkc.ne']
      ring
    rw [key, abs_of_nonneg (by positivity), div_lt_iff hkc]
    have hb : Vmax * Km ≤ c * ε := (div_le_iff hε).mp hcv
    nlinarith [mul_pos hε hK]

/-- C8 witness: monotone magnitudes at concentrations 1 and 2, and the
asymptotic bound for the glucose parameters at tolerance 1. -/
theorem kineticBound_monotone_and_asymptote_witness :
    |kineticBound 10 (1/100) 1| ≤ |kineticBound 10 (1/100) 2| ∧
    ∃ C : ℚ, ∀ c : ℚ, C ≤ c → |kineticBound 10 (1/100) c - (- 10)| < 1 :=
  ⟨(kineticBound_monotone_and_asymptote 10 (1/100) (by norm_num)
      (by norm_num)).1 1 2 (by norm_num) (by norm_num),
   (kineticBound_monotone_and_asymptote 10 (1/100) (by norm_num)
      (by norm_num)).2 1 (by norm_num)⟩
